import Mathlib

set_option maxHeartbeats 1000000

/-!
Verification of the core logic of the Telegram Keyword Monitor repository
(`main.py`, `keyword_manager.py`).  Pure Python functions are embedded as
Lean functions; the Telegram transport (telethon), the regular-expression
engine (`re`) and the MD5 digest (`hashlib.md5(...).hexdigest()`) are
external collaborators and are modelled as explicit oracles/parameters.
Unicode-sensitive Python string primitives (`str.lower`, `str.isdigit`,
`str.strip`, the `\s` class) are modelled on their ASCII fragment, which is
the fragment every claim exercises.
-/

/-- ASCII whitespace, as stripped by Python `str.strip()` and matched by the
regex class `\s` (ASCII fragment). -/
def pyIsSpace (c : Char) : Bool :=
  c = ' ' || c = '\t' || c = '\n' || c = '\r' || c = '\x0b' || c = '\x0c'

/-- Python `str.strip()` on a character list: drop whitespace from both ends. -/
def pyStripList (l : List Char) : List Char :=
  ((l.dropWhile pyIsSpace).reverse.dropWhile pyIsSpace).reverse

/-- One pass of `re.sub(r"\s+", " ", _)`: every maximal run of whitespace is
replaced by a single space.  The Boolean records whether the previous
character was part of a whitespace run. -/
def collapseWsAux : Bool → List Char → List Char
  | _, [] => []
  | prevWs, c :: rest =>
    if pyIsSpace c then
      if prevWs then collapseWsAux true rest
      else ' ' :: collapseWsAux true rest
    else c :: collapseWsAux false rest

/-- Python `str.lower()` (ASCII fragment). -/
def pyLowerStr (s : String) : String :=
  String.mk (s.data.map Char.toLower)

/-- The normalization performed in `generate_message_hash` (main.py line 620):
`re.sub(r"\s+", " ", message_text.strip().lower())`. -/
def normalizePy (s : String) : String :=
  String.mk (collapseWsAux false ((pyStripList s.data).map Char.toLower))

/-- Decimal digit character for a value below ten. -/
def natDigitChar (d : Nat) : Char := Char.ofNat (48 + d)

/-- Big-endian decimal digits of `n`, fuelled (the fuel `n` itself always
suffices because `n / 10 < n` for positive `n`). -/
def pyNatStrAux : Nat → Nat → List Char
  | 0, _ => []
  | fuel + 1, n => if n = 0 then [] else pyNatStrAux fuel (n / 10) ++ [natDigitChar (n % 10)]

/-- Python `str(n)` for a non-negative integer. -/
def pyNatStr (n : Nat) : String :=
  if n = 0 then "0" else String.mk (pyNatStrAux n n)

/-- Python `str(i)` for an arbitrary integer. -/
def pyIntStr (i : Int) : String :=
  if i < 0 then "-" ++ pyNatStr i.natAbs else pyNatStr i.natAbs

/-- Value of a big-endian decimal digit list. -/
def digitsVal (l : List Char) : Nat :=
  l.foldl (fun a c => a * 10 + (c.toNat - 48)) 0

/-- Python `s.lstrip("-")`: remove every leading dash. -/
def pyLstripDash (s : String) : String :=
  String.mk (s.data.dropWhile (fun c => c = '-'))

/-- Python `str.isdigit()` (ASCII fragment): non-empty and all digits. -/
def pyIsDigitStr (s : String) : Bool :=
  !s.data.isEmpty && s.data.all (fun c => c.isDigit)

/-- Python `int(s)` (core fragment: an optional single sign followed by one
or more ASCII digits); `none` models a raised `ValueError`. -/
def pyParseInt (s : String) : Option Int :=
  match s.data with
  | '-' :: rest =>
    if !rest.isEmpty && rest.all (fun c => c.isDigit) then some (-(Int.ofNat (digitsVal rest)))
    else none
  | '+' :: rest =>
    if !rest.isEmpty && rest.all (fun c => c.isDigit) then some (Int.ofNat (digitsVal rest))
    else none
  | l =>
    if !l.isEmpty && l.all (fun c => c.isDigit) then some (Int.ofNat (digitsVal l))
    else none

/-- Substring containment on character lists (Python `pat in s`). -/
def listIsSub (pat : List Char) : List Char → Bool
  | [] => pat.isEmpty
  | c :: rest => pat.isPrefixOf (c :: rest) || listIsSub pat rest

/-- Python substring test `pat in s`. -/
def strContainsSub (s pat : String) : Bool :=
  listIsSub pat.data s.data

/-- Boolean string-prefix test (used to state `response.startswith("...")`). -/
def strStartsWith (s pat : String) : Bool :=
  pat.data.isPrefixOf s.data

/-- `TelegramKeywordMonitor.check_group_filters` (main.py lines 234-257),
with the whitelist/blacklist read out of `config["groups"]` passed
explicitly.  The body keeps the source's (redundant) `any(... for w in
whitelist)` over a condition that does not depend on the bound variable. -/
def check_group_filters (whitelist blacklist : List String) (chat_id : Int)
    (chat_title : String) : Bool :=
  if !whitelist.isEmpty then
    whitelist.any (fun _ =>
      whitelist.contains (pyIntStr chat_id) ||
      (whitelist.map pyLowerStr).contains (pyLowerStr chat_title))
  else if !blacklist.isEmpty then
    !(blacklist.any (fun _ =>
      blacklist.contains (pyIntStr chat_id) ||
      (blacklist.map pyLowerStr).contains (pyLowerStr chat_title)))
  else
    true

/-- Oracle for `re.search(pattern, text, flags)` with the ignore-case flag:
`none` models a raised `re.error` (invalid pattern), `some b` a successful
search with result `b`. -/
structure ReSearchFn where
  search : String → String → Bool → Option Bool

/-- The regex-vs-literal classification used by `check_keywords`
(main.py line 271): starts with `(?i)` or contains `(` or `[`. -/
def isRegexKeyword (k : String) : Bool :=
  strStartsWith k "(?i)" || k.data.contains '(' || k.data.contains '['

/-- The per-keyword loop of `check_keywords` (main.py lines 268-286); a
`re.error` (oracle answer `none`) is caught and the scan continues. -/
def check_keywords_go (R : ReSearchFn) (case_sensitive : Bool) (message_text : String) :
    List String → List String
  | [] => []
  | keyword :: rest =>
    if isRegexKeyword keyword then
      match R.search keyword message_text (!case_sensitive) with
      | none => check_keywords_go R case_sensitive message_text rest
      | some true => keyword :: check_keywords_go R case_sensitive message_text rest
      | some false => check_keywords_go R case_sensitive message_text rest
    else
      let text_to_search := if case_sensitive then message_text else pyLowerStr message_text
      let keyword_to_search := if case_sensitive then keyword else pyLowerStr keyword
      if strContainsSub text_to_search keyword_to_search then
        keyword :: check_keywords_go R case_sensitive message_text rest
      else
        check_keywords_go R case_sensitive message_text rest

/-- `TelegramKeywordMonitor.check_keywords` (main.py lines 259-288). -/
def check_keywords (R : ReSearchFn) (case_sensitive : Bool) (keywords : List String)
    (message_text : String) : List String :=
  if message_text = "" then [] else check_keywords_go R case_sensitive message_text keywords

/-- The `_sender_{sender_id}` suffix of `generate_message_hash` (main.py
lines 628-629); Python truthiness makes both `None` and `0` skip it. -/
def senderSuffix (include_sender : Bool) (sender_id : Option Int) : String :=
  match sender_id with
  | some sid => if include_sender ∧ sid ≠ 0 then "_sender_" ++ pyIntStr sid else ""
  | none => ""

/-- The string fed to MD5 by `generate_message_hash` (main.py lines 617-631):
normalized text, with a `short_msg_{len}_{text}` marker substituted when the
normalized text has fewer than three characters, then the optional sender
suffix. -/
def generate_hash_input (include_sender : Bool) (message_text : String)
    (sender_id : Option Int) : String :=
  let normalized := normalizePy message_text
  let normalized :=
    if normalized.length < 3 then
      "short_msg_" ++ pyNatStr normalized.length ++ "_" ++ normalized
    else normalized
  normalized ++ senderSuffix include_sender sender_id

/-- `TelegramKeywordMonitor.generate_message_hash` (main.py lines 617-636),
with `hashlib.md5(...).hexdigest()` as an explicit digest parameter. -/
def generate_message_hash (md5hex : String → String) (include_sender : Bool)
    (message_text : String) (sender_id : Option Int) : String :=
  md5hex (generate_hash_input include_sender message_text sender_id)

/-- Python-dict lookup on an association list (first binding wins; the keys
of a genuine dict are pairwise distinct, see `keysNodup`). -/
def dictLookup : List (String × Int) → String → Option Int
  | [], _ => none
  | (k1, v1) :: rest, k => if k1 = k then some v1 else dictLookup rest k

/-- Python-dict assignment `d[k] = v`: replace in place, or append a new key. -/
def dictInsert : List (String × Int) → String → Int → List (String × Int)
  | [], k, v => [(k, v)]
  | (k1, v1) :: rest, k, v =>
    if k1 = k then (k, v) :: rest else (k1, v1) :: dictInsert rest k v

/-- Python-dict deletion `del d[k]` (the key occurs at most once). -/
def dictErase : List (String × Int) → String → List (String × Int)
  | [], _ => []
  | (k1, v1) :: rest, k => if k1 = k then rest else (k1, v1) :: dictErase rest k

/-- The representation invariant of a Python dict as an association list. -/
def keysNodup (m : List (String × Int)) : Prop :=
  (m.map Prod.fst).Nodup

/-- `TelegramKeywordMonitor.cleanup_old_hashes` (main.py lines 662-675):
remove every entry with `now - timestamp > ttl`.  Times are in seconds, the
stored `expiry_hours` is converted by `ttl = hours * 3600`
(`timedelta(hours=h)`). -/
def cleanup_old_hashes (hash_expiry_hours : Int) (now : Int)
    (message_hashes : List (String × Int)) : List (String × Int) :=
  message_hashes.filter (fun p => !(now - p.2 > hash_expiry_hours * 3600))

/-- `TelegramKeywordMonitor.is_duplicate_message` (main.py lines 638-660):
returns the reported Boolean and the updated hash map. -/
def is_duplicate_message (hash_expiry_hours : Int) (now : Int)
    (message_hashes : List (String × Int)) (message_hash : String) :
    Bool × List (String × Int) :=
  let m :=
    if message_hashes.length > 1000 then
      cleanup_old_hashes hash_expiry_hours now message_hashes
    else message_hashes
  match dictLookup m message_hash with
  | some hash_time =>
    if now - hash_time < hash_expiry_hours * 3600 then
      (true, m)
    else
      (false, dictInsert (dictErase m message_hash) message_hash now)
  | none => (false, dictInsert m message_hash now)

/-- The `duplicate_detection` JSON object; each field is optional, the
defaults (`True`, `24`, `True`) are applied at every read via `.get`. -/
structure DupCfg where
  enabled : Option Bool := none
  expiry_hours : Option Int := none
  include_sender : Option Bool := none
deriving DecidableEq, Repr

/-- The `telegram` section of the config (the fields the core logic reads). -/
structure TelegramCfg where
  notification_target : String := "me"
  needs_join : Bool := false
  invite_hash : Option String := none
deriving DecidableEq, Repr

/-- The `settings` section; defaults match the `.get(key, default)` reads. -/
structure Settings where
  case_sensitive : Bool := false
  send_full_message : Bool := true
  max_message_length : Nat := 500
  forward_media : Bool := true
  media_only_forward : Bool := true
  notification_mode : String := "channel_only"
deriving DecidableEq, Repr

/-- The persisted `config.json` aggregate (the keys the claims exercise). -/
structure Config where
  telegram : TelegramCfg := {}
  settings : Settings := {}
  keywords : List String := []
  groups_whitelist : List String := []
  groups_blacklist : List String := []
  duplicate_detection : Option DupCfg := none
deriving DecidableEq, Repr

/-- A concrete default configuration (all keys at their defaults). -/
def cfg0 : Config := {}

/-- The monitor's read of the dedup TTL: `dup_config.get("expiry_hours", 24)`. -/
def dupExpiryHours (cfg : Config) : Int :=
  ((cfg.duplicate_detection.getD {}).expiry_hours).getD 24

/-- The no-argument `/duplicates` response (keyword_manager.py lines 312-330). -/
def duplicates_status_response (cfg : Config) : String :=
  let dup := cfg.duplicate_detection.getD {}
  let enabled := dup.enabled.getD true
  let hours := dup.expiry_hours.getD 24
  let include_sender := dup.include_sender.getD true
  "🔄 **Duplikat-Erkennung Einstellungen:**\n\n" ++
  "Status: " ++ (if enabled then "✅ Aktiviert" else "❌ Deaktiviert") ++ "\n" ++
  "Hash-Gültigkeit: " ++ pyIntStr hours ++ " Stunden\n" ++
  "Absender berücksichtigen: " ++ (if include_sender then "Ja" else "Nein") ++ "\n\n" ++
  "**Verfügbare Befehle:**\n" ++
  "• `/duplicates on` - Duplikat-Erkennung aktivieren\n" ++
  "• `/duplicates off` - Duplikat-Erkennung deaktivieren\n" ++
  "• `/duplicates hours <zahl>` - Hash-Gültigkeit setzen\n" ++
  "• `/duplicates sender on/off` - Absender-Berücksichtigung\n"

/-- `KeywordManager.debug_duplicates` (keyword_manager.py lines 405-464); the
`test` sub-action feeds a fixed message through the same normalization and
the MD5 oracle. -/
def debug_duplicates (md5hex : String → String) (cfg : Config) (args : List String) : String :=
  match args with
  | [] =>
    "🔧 **Duplikat-Debug Befehle:**\n\n" ++
    "• `/duplicates debug status` - Zeige Debug-Informationen\n" ++
    "• `/duplicates debug clear` - Lösche alle gespeicherten Hashes\n" ++
    "• `/duplicates debug test` - Teste Hash-Generierung\n\n" ++
    "**Beispiel:** `/duplicates debug status`"
  | a0 :: _ =>
    let action := pyLowerStr a0
    if action = "status" then
      let dup := cfg.duplicate_detection.getD {}
      "🔧 **Duplikat-Debug Status:**\n\n" ++
      "**Gespeicherte Hashes:** Wird zur Laufzeit angezeigt\n" ++
      "**Einstellungen:**\n" ++
      "- Aktiviert: " ++ (if dup.enabled.getD true then "Ja" else "Nein") ++ "\n" ++
      "- Gültigkeit: " ++ pyIntStr (dup.expiry_hours.getD 24) ++ " Stunden\n" ++
      "- Absender berücksichtigen: " ++ (if dup.include_sender.getD true then "Ja" else "Nein") ++ "\n\n" ++
      "💡 **Hinweis:** Detaillierte Hash-Informationen werden in den Logs angezeigt.\n" ++
      "Verwenden Sie `docker-compose logs -f telegram-monitor` um sie zu sehen."
    else if action = "clear" then
      "⚠️ **Hash-Speicher leeren:**\n\n" ++
      "Dies würde alle gespeicherten Message-Hashes löschen.\n" ++
      "Danach werden alle Nachrichten als \x27neu\x27 behandelt.\n\n" ++
      "💡 **Hinweis:** Diese Funktion ist nur zur Laufzeit verfügbar.\n" ++
      "Starten Sie den Container neu um den Hash-Speicher zu leeren:\n" ++
      "`docker-compose restart telegram-monitor`"
    else if action = "test" then
      let test_message := "Dies ist eine Test-Nachricht für Hash-Generierung"
      let normalized := normalizePy test_message
      let hash_result := md5hex normalized
      "🧪 **Hash-Test:**\n\n" ++
      "**Original:** `" ++ test_message ++ "`\n" ++
      "**Normalisiert:** `" ++ normalized ++ "`\n" ++
      "**Hash:** `" ++ hash_result.take 16 ++ "...`\n\n" ++
      "💡 Gleiche Nachrichten erzeugen den gleichen Hash."
    else
      "❌ Unbekannte Debug-Aktion: " ++ action ++ "\n\nVerfügbare Aktionen: status, clear, test"

/-- `KeywordManager.manage_duplicates` (keyword_manager.py lines 310-403).
The first component is the command response, the second the configuration as
persisted on disk afterwards (the input `cfg` when no `save_config` ran). -/
def manage_duplicates (md5hex : String → String) (cfg : Config) (args : List String) :
    String × Config :=
  match args with
  | [] => (duplicates_status_response cfg, cfg)
  | a0 :: rest =>
    let action := pyLowerStr a0
    -- in-memory insertion of the default block when the key is absent
    let cfgM :=
      match cfg.duplicate_detection with
      | none =>
        {cfg with
          duplicate_detection := some ({enabled := some true, expiry_hours := some 24, include_sender := some true})}
      | some _ => cfg
    let dup := cfgM.duplicate_detection.getD {}
    if action = "on" then
      (("✅ Duplikat-Erkennung aktiviert."),
        {cfgM with duplicate_detection := some ({dup with enabled := some true})})
    else if action = "off" then
      (("❌ Duplikat-Erkennung deaktiviert."),
        {cfgM with duplicate_detection := some ({dup with enabled := some false})})
    else if action = "hours" then
      match rest with
      | [] => ("❌ Bitte geben Sie die Anzahl Stunden an.\n\nBeispiel: `/duplicates hours 12`", cfg)
      | h0 :: _ =>
        match pyParseInt h0 with
        | none => ("❌ Ungültige Zahl. Beispiel: `/duplicates hours 12`", cfg)
        | some hours =>
          if hours < 1 ∨ hours > 168 then
            ("❌ Stunden müssen zwischen 1 und 168 (1 Woche) liegen.", cfg)
          else
            ("✅ Hash-Gültigkeit auf " ++ pyIntStr hours ++ " Stunden gesetzt.",
              {cfgM with duplicate_detection := some ({dup with expiry_hours := some hours})})
    else if action = "sender" then
      match rest with
      | [] => ("❌ Bitte geben Sie on oder off an.\n\nBeispiel: `/duplicates sender off`", cfg)
      | s0 :: _ =>
        let sender_action := pyLowerStr s0
        if sender_action = "on" then
          ("✅ Absender wird bei Duplikat-Erkennung berücksichtigt.",
            {cfgM with duplicate_detection := some ({dup with include_sender := some true})})
        else if sender_action = "off" then
          ("❌ Absender wird bei Duplikat-Erkennung ignoriert.",
            {cfgM with duplicate_detection := some ({dup with include_sender := some false})})
        else
          ("❌ Verwenden Sie \x27on\x27 oder \x27off\x27.\n\nBeispiel: `/duplicates sender off`", cfg)
    else if action = "debug" then
      (debug_duplicates md5hex cfg rest, cfg)
    else if action = "clear" then
      ("🗑️ **Hash-Speicher leeren:**\n\n" ++
       "Um alle gespeicherten Message-Hashes zu löschen,\n" ++
       "starten Sie den Container neu:\n\n" ++
       "`docker-compose restart telegram-monitor`\n\n" ++
       "⚠️ **Warnung:** Danach werden alle Nachrichten als \x27neu\x27 behandelt!", cfg)
    else
      ("❌ Unbekannte Aktion: " ++ action ++
       "\n\nVerfügbare Aktionen: on, off, hours, sender, debug, clear", cfg)

/-- The `/target set` format check (keyword_manager.py line 501): accepted
iff the target is `me`, or starts with `@`, or is all digits after stripping
every leading dash (`lstrip("-").isdigit()`). -/
def target_format_ok (s : String) : Bool :=
  s = "me" || strStartsWith s "@" || pyIsDigitStr (pyLstripDash s)

/-- Modelled from the spec: a signed integer literal, i.e. an optional
single sign followed by one or more digits.  Used only to compare the
spec-stated DeliveryTarget invariant against the code's actual check. -/
def isSignedIntLit (s : String) : Bool :=
  match s.data with
  | '-' :: rest => !rest.isEmpty && rest.all (fun c => c.isDigit)
  | '+' :: rest => !rest.isEmpty && rest.all (fun c => c.isDigit)
  | l => !l.isEmpty && l.all (fun c => c.isDigit)

/-- Modelled from the spec: "DeliveryTarget string is always one of `me`, a
string starting with `@`, or a signed integer literal." -/
def spec_target_form (s : String) : Bool :=
  s = "me" || strStartsWith s "@" || isSignedIntLit s

/-- `KeywordManager.manage_notification_target` (keyword_manager.py lines
466-547).  `now` stands for `datetime.now().strftime(...)` in the `test`
branch.  Returns the response and the persisted configuration. -/
def manage_notification_target (cfg : Config) (now : String) (args : List String) :
    String × Config :=
  match args with
  | [] =>
    ("📬 **Benachrichtigungs-Ziel Verwaltung:**\n\n" ++
     "**Aktuelles Ziel:** `" ++ cfg.telegram.notification_target ++ "`\n\n" ++
     "**Verfügbare Befehle:**\n" ++
     "• `/target set me` - Saved Messages verwenden\n" ++
     "• `/target set @channel_name` - Kanal verwenden\n" ++
     "• `/target set -1001234567890` - Chat-ID verwenden\n" ++
     "• `/target test` - Test-Nachricht senden\n" ++
     "• `/target check <ziel>` - Ziel-Berechtigung prüfen\n\n" ++
     "**Hinweise:**\n" ++
     "- Für Kanäle: Erstellen Sie einen Kanal und fügen Sie sich selbst als Admin hinzu\n" ++
     "- Für Gruppen: Verwenden Sie die Chat-ID (negative Zahl)\n" ++
     "- \x27me\x27 = Ihre Saved Messages (Standard)\n" ++
     "- Bei Chat-IDs: Stellen Sie sicher, dass Sie Schreibrechte haben\n\n" ++
     "**Troubleshooting:**\n" ++
     "- Kanal-ID funktioniert nicht? Versuchen Sie @username\n" ++
     "- Keine Berechtigung? Prüfen Sie Admin-Rechte im Kanal\n" ++
     "- Immer noch Probleme? Verwenden Sie \x27me\x27 als Fallback", cfg)
  | a0 :: rest =>
    let action := pyLowerStr a0
    if action = "set" then
      match rest with
      | [] => ("❌ Bitte geben Sie ein Ziel an.\n\nBeispiel: `/target set @my_channel`", cfg)
      | new_target :: _ =>
        if !target_format_ok new_target then
          ("❌ Ungültiges Ziel-Format.\n\nVerwenden Sie: \x27me\x27, \x27@channel_name\x27 oder \x27-1001234567890\x27", cfg)
        else
          ("✅ Benachrichtigungs-Ziel auf `" ++ new_target ++
           "` gesetzt.\n\nVerwenden Sie `/target test` um es zu testen.",
            {cfg with telegram := {cfg.telegram with notification_target := new_target}})
    else if action = "test" then
      let target := cfg.telegram.notification_target
      ("🧪 **Test-Nachricht für Ziel: `" ++ target ++ "`**\n\n" ++
       "Wenn Sie diese Nachricht erhalten, funktioniert das Benachrichtigungs-Ziel korrekt!\n\n" ++
       "**Ziel:** " ++ target ++ "\n" ++
       "**Zeit:** " ++ now ++ "\n\n" ++
       "💡 **Hinweis:** Wenn Sie diese Nachricht nicht im konfigurierten Ziel sehen,\n" ++
       "überprüfen Sie die Berechtigungen oder verwenden Sie einen anderen Ziel-Typ.", cfg)
    else if action = "check" then
      match rest with
      | [] => ("❌ Bitte geben Sie ein Ziel zum Prüfen an.\n\nBeispiel: `/target check -1002153150590`", cfg)
      | target_to_check :: _ =>
        ("🔍 **Ziel-Prüfung für: `" ++ target_to_check ++ "`**\n\n" ++
         "**Wird geprüft...**\n" ++
         "- Format: " ++ (if pyIsDigitStr (pyLstripDash target_to_check) then "Chat-ID" else "Username/Text") ++ "\n" ++
         "- Typ: " ++ (if strStartsWith target_to_check "-" then "Kanal/Gruppe" else "Benutzer/Kanal") ++ "\n\n" ++
         "💡 **Hinweis:** Detaillierte Prüfung wird in den Logs angezeigt.\n" ++
         "Verwenden Sie `docker-compose logs -f telegram-monitor` um Details zu sehen.", cfg)
    else
      ("❌ Unbekannte Aktion: " ++ action ++ "\n\nVerfügbare Aktionen: set, test, check", cfg)

/-- A reference a message can be addressed to: a string target, a raw
integer id, a `PeerUser(id)`, or a just-joined channel entity. -/
inductive TgtRef where
  | str (s : String)
  | int (i : Int)
  | peerUser (i : Int)
  | entity (i : Int)
deriving DecidableEq, Repr

/-- An outbound transport request (telethon `send_message` / `forward_messages`). -/
inductive TOp where
  | send (tgt : TgtRef) (txt : String)
  | forward (tgt : TgtRef)
deriving DecidableEq, Repr

/-- A chat returned by `ImportChatInviteRequest(...).chats`. -/
structure Chan where
  id : Int
  title : String
deriving DecidableEq, Repr

/-- An entity returned by `get_entity`; `isChannel` models the duck-typed
`hasattr(entity, "megagroup") or hasattr(entity, "broadcast")` probe. -/
structure Entity where
  id : Int
  isChannel : Bool
deriving DecidableEq, Repr

/-- The transport oracle: the outcome of the `k`-th transport call (a global
call counter orders the calls, so any behaviour over time is expressible).
`Except.error ()` models a raised exception. -/
structure Transport where
  op : Nat → TOp → Except Unit Unit
  me : Nat → Except Unit Int
  entityOf : Nat → String → Except Unit Entity
  perms : Nat → Except Unit Bool
  joinInvite : Nat → String → Except Unit (List Chan)

/-- Every transport operation raises, at every point in time. -/
def TransportAllFail (t : Transport) : Prop :=
  (∀ k o, t.op k o = .error ()) ∧ (∀ k, t.me k = .error ()) ∧
  (∀ k s, t.entityOf k s = .error ()) ∧ (∀ k, t.perms k = .error ()) ∧
  (∀ k s, t.joinInvite k s = .error ())

/-- The concrete always-failing transport. -/
def tfail : Transport :=
  { op := fun _ _ => .error (), me := fun _ => .error (),
    entityOf := fun _ _ => .error (), perms := fun _ => .error (),
    joinInvite := fun _ _ => .error () }

inductive LogLevel where
  | debug
  | info
  | warning
  | error
deriving DecidableEq, Repr

/-- One `logging.<level>(msg)` call. -/
structure LogEntry where
  level : LogLevel
  msg : String
deriving DecidableEq, Repr

/-- State threaded through the dispatcher: the transport call counter, the
persisted/in-memory configuration (`ensure_channel_access` always saves right
after mutating, so the two coincide), and the log. -/
structure DpSt where
  k : Nat
  cfg : Config
  logs : List LogEntry
deriving Repr

/-- The dispatch monad: state survives exceptions (logs and saved config are
real-world effects), while `Except.error ()` models an in-flight Python
exception. -/
def DpM (α : Type) : Type :=
  DpSt → Except Unit α × DpSt

instance : Monad DpM where
  pure a := fun s => (.ok a, s)
  bind m f := fun s =>
    match m s with
    | (.ok a, s2) => f a s2
    | (.error e, s2) => (.error e, s2)

/-- `logging.<level>(msg)`. -/
def dpLog (level : LogLevel) (msg : String) : DpM Unit :=
  fun s => (.ok (), {s with logs := s.logs ++ [⟨level, msg⟩]})

/-- Read `self.config`. -/
def dpGetCfg : DpM Config :=
  fun s => (.ok s.cfg, s)

/-- Mutate `self.config` and `save_config` it (always paired in the source). -/
def dpSetCfg (cfg : Config) : DpM Unit :=
  fun s => (.ok (), {s with cfg := cfg})

/-- An uncaught `raise` (e.g. `int(...)` raising `ValueError`). -/
def dpFail {α : Type} : DpM α :=
  fun s => (.error (), s)

/-- Python `try: m except Exception: h`. -/
def dpTry {α : Type} (m : DpM α) (h : Unit → DpM α) : DpM α :=
  fun s =>
    match m s with
    | (.ok a, s2) => (.ok a, s2)
    | (.error e, s2) => h e s2

/-- `client.send_message(tgt, txt)`. -/
def sendMessage (t : Transport) (tgt : TgtRef) (txt : String) : DpM Unit :=
  fun s => (t.op s.k (.send tgt txt), {s with k := s.k + 1})

/-- `client.forward_messages(tgt, original_message)`. -/
def forwardMessages (t : Transport) (tgt : TgtRef) : DpM Unit :=
  fun s => (t.op s.k (.forward tgt), {s with k := s.k + 1})

/-- `client.get_me()`, returning the own user id. -/
def dpMe (t : Transport) : DpM Int :=
  fun s => (t.me s.k, {s with k := s.k + 1})

/-- `client.get_entity(ref)`. -/
def dpEntity (t : Transport) (ref : String) : DpM Entity :=
  fun s => (t.entityOf s.k ref, {s with k := s.k + 1})

/-- `client.get_permissions(entity, me).send_messages`. -/
def dpPerms (t : Transport) : DpM Bool :=
  fun s => (t.perms s.k, {s with k := s.k + 1})

/-- `client(ImportChatInviteRequest(invite_hash)).chats`. -/
def dpJoin (t : Transport) (invite_hash : String) : DpM (List Chan) :=
  fun s => (t.joinInvite s.k invite_hash, {s with k := s.k + 1})

/-- `TelegramKeywordMonitor.validate_notification_target` (main.py lines
514-551): a best-effort probe whose own failures are swallowed. -/
def validate_notification_target (t : Transport) (target : String) : DpM Bool :=
  dpTry
    (do
      if target = "me" then
        pure true
      else do
        let ent ← dpEntity t target
        dpLog .debug "Target entity found"
        if ent.isChannel then do
          dpTry
            (do
              let _ ← dpMe t
              let canSend ← dpPerms t
              if !canSend then do
                dpLog .warning ("No send permission in " ++ target)
                pure false
              else
                pure true)
            (fun _ => do
              dpLog .warning ("Could not check permissions for " ++ target)
              dpLog .info ("Assuming access to private channel " ++ target)
              pure true)
        else
          pure true)
    (fun _ => do
      dpLog .error ("Failed to validate target " ++ target)
      pure true)

/-- `TelegramKeywordMonitor.ensure_channel_access` (main.py lines 553-615):
one-shot join of a gated channel; persists the `-100`-prefixed channel id on
success, falls back to `me` on any join/welcome failure, and swallows every
exception at its outer boundary. -/
def ensure_channel_access (t : Transport) : DpM Unit :=
  dpTry
    (do
      let cfg ← dpGetCfg
      let notification_target := cfg.telegram.notification_target
      let needs_join := cfg.telegram.needs_join
      match cfg.telegram.invite_hash with
      | some invite_hash =>
        if needs_join ∧ invite_hash ≠ "" ∧ notification_target ≠ "me" then do
          dpLog .info "Attempting to join private channel via invite link..."
          dpTry
            (do
              let chats ← dpJoin t invite_hash
              match chats with
              | [] => pure ()
              | channel :: _ => do
                let channel_id := "-100" ++ pyIntStr channel.id
                let cfg2 := {cfg with telegram :=
                  {cfg.telegram with notification_target := channel_id, needs_join := false}}
                dpSetCfg cfg2
                dpLog .info ("✅ Successfully joined private channel: " ++ channel.title ++
                  " (" ++ channel_id ++ ")")
                sendMessage t (.entity channel.id)
                  ("🎉 **Private Channel Connected!**\n\n" ++
                   "Keyword Monitor ist jetzt mit diesem privaten Kanal verbunden.\n\n" ++
                   "**Kanal:** " ++ channel.title ++ "\n" ++
                   "**ID:** `" ++ channel_id ++ "`\n" ++
                   "**Status:** Privat ✅"))
            (fun _ => do
              dpLog .error "Failed to join private channel"
              let cfg3 := {cfg with telegram :=
                {cfg.telegram with notification_target := "me", needs_join := false}}
              dpSetCfg cfg3
              dpLog .warning "Falling back to \x27me\x27 as notification target"
              sendMessage t (.str "me")
                ("⚠️ **Fallback zu Saved Messages**\n\n" ++
                 "Konnte nicht dem privaten Kanal beitreten.\n" ++
                 "Benachrichtigungen gehen jetzt an Ihre Saved Messages.\n\n" ++
                 "💡 Verwenden Sie `/target set me` um dies zu bestätigen."))
        else
          pure ()
      | none => pure ())
    (fun _ => dpLog .error "Error in ensure_channel_access")

/-- The media flags probed on a telethon message object. -/
structure Media where
  photo : Bool := false
  video : Bool := false
  document : Bool := false
  sticker : Bool := false
  voice : Bool := false
  video_note : Bool := false
  audio : Bool := false
deriving DecidableEq, Repr

/-- The arguments `message_handler` passes to `send_notification`. -/
structure AlertArgs where
  chat_title : String
  sender_name : String
  message_text : String
  keywords : List String
  chat_id : Int
  message_id : Nat
  original_message : Option Media
deriving DecidableEq, Repr

/-- Disjunction of the seven media flags (main.py lines 360-368). -/
def media_flags_any (m : Media) : Bool :=
  m.photo || m.video || m.document || m.sticker || m.voice || m.video_note || m.audio

/-- `original_message and (original_message.photo or ...)`. -/
def has_media (om : Option Media) : Bool :=
  match om with
  | none => false
  | some m => media_flags_any m

/-- The media-type labels collected in source order (main.py lines 372-386). -/
def media_types (m : Media) : List String :=
  (if m.photo then ["📷 Photo"] else []) ++
  (if m.video then ["🎥 Video"] else []) ++
  (if m.document then ["📄 Document"] else []) ++
  (if m.sticker then ["🎭 Sticker"] else []) ++
  (if m.voice then ["🎤 Voice"] else []) ++
  (if m.video_note then ["📹 Video Note"] else []) ++
  (if m.audio then ["🎵 Audio"] else [])

/-- The `**Media:** ...` line (empty when the message has no media). -/
def media_info (om : Option Media) : String :=
  match om with
  | none => ""
  | some m =>
    if media_flags_any m then
      "**Media:** " ++ String.intercalate ", " (media_types m) ++ "\n"
    else ""

/-- `TelegramKeywordMonitor.format_message` (main.py lines 327-336). -/
def format_message (st : Settings) (message_text : String) : String :=
  if !st.send_full_message ∧ message_text.length > st.max_message_length then
    message_text.take st.max_message_length ++ "..."
  else
    message_text

/-- The deep link built in `send_notification` (main.py lines 346-353):
supergroup ids drop their `-100` prefix, other groups use the absolute
value, private chats the id itself. -/
def message_link (chat_id : Int) (message_id : Nat) : String :=
  if chat_id < 0 then
    if strStartsWith (pyIntStr chat_id) "-100" then
      "https://t.me/c/" ++ (pyIntStr chat_id).drop 4 ++ "/" ++ pyNatStr message_id
    else
      "https://t.me/c/" ++ pyNatStr chat_id.natAbs ++ "/" ++ pyNatStr message_id
  else
    "https://t.me/c/" ++ pyIntStr chat_id ++ "/" ++ pyNatStr message_id

/-- The fully composed notification text (main.py lines 390-399); `now`
stands for `datetime.now().strftime("%Y-%m-%d %H:%M:%S")`. -/
def compose_notification (st : Settings) (a : AlertArgs) (now : String) : String :=
  "🔍 **Keyword Match Found!**\n\n" ++
  "**Keywords:** " ++ String.intercalate ", " a.keywords ++ "\n" ++
  "**Group:** " ++ a.chat_title ++ "\n" ++
  "**Sender:** " ++ a.sender_name ++ "\n" ++
  "**Time:** " ++ now ++ "\n" ++
  media_info a.original_message ++
  "\n**Message:**\n" ++ format_message st a.message_text ++ "\n\n" ++
  "**Link:** " ++ message_link a.chat_id a.message_id

/-- The `for target in fallback_targets` loop (main.py lines 469-481):
try each candidate, stop on first success, swallow individual failures. -/
def fallbackLoop (t : Transport) (notification : String) (hm : Bool) :
    List TgtRef → DpM Bool
  | [] => pure false
  | tgt :: rest =>
    dpTry
      (do
        if hm then do
          forwardMessages t tgt
          dpLog .info "✅ Media forwarded to fallback target"
        else do
          sendMessage t tgt notification
          dpLog .info "✅ Text notification sent to fallback target"
        pure true)
      (fun _ => do
        dpLog .debug "Fallback target failed"
        fallbackLoop t notification hm rest)

/-- The primary delivery attempt of `send_notification` (main.py lines
409-447): the body of the inner `try` whose handler starts the fallback
chain. -/
def send_notification_primary (t : Transport) (cfg : Config) (a : AlertArgs)
    (notification : String) (hm : Bool) : DpM Unit := do
  let notification_target := cfg.telegram.notification_target
  let mode := cfg.settings.notification_mode
  let send_to_saved_messages := mode = "both" ∨ mode = "saved_messages_only"
  let _ ← validate_notification_target t notification_target
  let forward_media := cfg.settings.forward_media
  let media_only_forward := cfg.settings.media_only_forward
  if send_to_saved_messages then do
    sendMessage t (.str "me") notification
    dpLog .info "✅ Notification sent to Saved Messages for guaranteed push notification"
  if mode ≠ "saved_messages_only" then do
    if !(hm ∧ media_only_forward) then do
      sendMessage t (.str notification_target) notification
      dpLog .info ("✅ Text notification sent to " ++ notification_target)
    if hm ∧ forward_media then
      dpTry
        (do
          forwardMessages t (.str notification_target)
          dpLog .info ("✅ Media forwarded to " ++ notification_target)
          if media_only_forward then do
            sendMessage t (.str notification_target)
              ("🔍 " ++ String.intercalate ", " a.keywords ++ " in " ++ a.chat_title)
            dpLog .info "✅ Short notification sent for media message")
        (fun _ => do
          dpLog .warning "Media forward failed"
          sendMessage t (.str notification_target) notification
          dpLog .info "✅ Fallback text notification sent")

/-- The fallback chain of `send_notification` (main.py lines 448-507): the
`except` handler for the primary attempt, with its nested second and final
fallback handlers. -/
def send_notification_fallback (t : Transport) (notification_target : String)
    (notification : String) (hm : Bool) : DpM Unit :=
  dpTry
    (do
      if notification_target ≠ "me" then do
        let fallback_targets ←
          if pyIsDigitStr (pyLstripDash notification_target) then
            match pyParseInt notification_target with
            | some n => (pure [TgtRef.int n] : DpM (List TgtRef))
            | none => dpFail
          else if strStartsWith notification_target "@" then
            pure [TgtRef.str notification_target, TgtRef.str (notification_target.drop 1)]
          else
            pure [TgtRef.str ("@" ++ notification_target), TgtRef.str notification_target]
        let success ← fallbackLoop t notification hm fallback_targets
        if !success then dpFail else pure ()
      else do
        let meId ← dpMe t
        if hm then do
          forwardMessages t (.int meId)
          dpLog .info "✅ Media forwarded to user ID"
        else do
          sendMessage t (.int meId) notification
          dpLog .info "✅ Text notification sent to user ID")
    (fun _ => do
      dpLog .warning "All fallback methods failed"
      dpTry
        (do
          let meId ← dpMe t
          sendMessage t (.peerUser meId) notification
          dpLog .info "✅ Final fallback text notification sent")
        (fun _ => do
          dpLog .error "❌ All notification methods failed"
          dpLog .info ("NOTIFICATION: " ++ notification)
          dpLog .error ("Target " ++ notification_target ++
            " is not accessible. Check permissions or use \x27me\x27 as target.")))

/-- `TelegramKeywordMonitor.send_notification` (main.py lines 338-512). -/
def send_notification (t : Transport) (now : String) (a : AlertArgs) : DpM Unit :=
  dpTry
    (do
      ensure_channel_access t
      let cfg ← dpGetCfg
      let notification := compose_notification cfg.settings a now
      let hm := has_media a.original_message
      let notification_target := cfg.telegram.notification_target
      dpTry
        (send_notification_primary t cfg a notification hm)
        (fun _ => do
          dpLog .warning ("Failed to send to " ++ notification_target)
          send_notification_fallback t notification_target notification hm))
    (fun _ => do
      dpLog .error "Error in send_notification"
      dpLog .info ("Failed notification content: Keywords: " ++
        String.intercalate ", " a.keywords ++ ", Group: " ++ a.chat_title ++
        ", Sender: " ++ a.sender_name))

/-- The condition under which `send_notification` issues at least one
delivery attempt for the alert itself: either the guaranteed copy to Saved
Messages is on, or the channel path sends the text or forwards the media.
(When the mode is `channel_only`, the message carries media,
`media_only_forward` is on and `forward_media` is off, the code sends
nothing at all.) -/
def attempts_delivery (st : Settings) (hm : Bool) : Bool :=
  (st.notification_mode == "both" || st.notification_mode == "saved_messages_only") ||
  (!(st.notification_mode == "saved_messages_only") &&
    (!(hm && st.media_only_forward) || (hm && st.forward_media)))

/-! Helper lemmas. -/

theorem str_data_append (a b : String) : (a ++ b).data = a.data ++ b.data := rfl

theorem list_any_const {α : Type} (l : List α) (b : Bool) (h : l ≠ []) :
    l.any (fun _ => b) = b := by
  cases l with
  | nil => exact absurd rfl h
  | cons x xs => cases b <;> simp [List.any]

theorem isEmpty_false_of_ne_nil {α : Type} (l : List α) (h : l ≠ []) :
    l.isEmpty = false := by
  cases l with
  | nil => exact absurd rfl h
  | cons x xs => rfl

theorem pyNatStrAux_all_digits :
    ∀ fuel n c, c ∈ pyNatStrAux fuel n → 48 ≤ c.toNat ∧ c.toNat ≤ 57 := by
  intro fuel
  induction fuel with
  | zero => intro n c hc; simp [pyNatStrAux] at hc
  | succ fuel ih =>
    intro n c hc
    by_cases hn : n = 0
    · simp [pyNatStrAux, hn] at hc
    · simp only [pyNatStrAux, if_neg hn, List.mem_append, List.mem_singleton] at hc
      rcases hc with hc | hc
      · exact ih _ _ hc
      · subst hc
        have hd : n % 10 < 10 := Nat.mod_lt _ (by norm_num)
        interval_cases h : n % 10 <;> simp [natDigitChar]

theorem pyNatStrAux_ne_nil (fuel n : Nat) (h0 : n ≠ 0) (hf : fuel ≠ 0) :
    pyNatStrAux fuel n ≠ [] := by
  cases fuel with
  | zero => exact absurd rfl hf
  | succ fuel => simp [pyNatStrAux, h0]

theorem pyNatStr_data_digits (n : Nat) :
    ∀ c ∈ (pyNatStr n).data, 48 ≤ c.toNat ∧ c.toNat ≤ 57 := by
  intro c hc
  by_cases hn : n = 0
  · simp [pyNatStr, hn] at hc
    subst hc; decide
  · simp only [pyNatStr, if_neg hn] at hc
    exact pyNatStrAux_all_digits n n c hc

theorem pyNatStr_data_ne_nil (n : Nat) : (pyNatStr n).data ≠ [] := by
  by_cases hn : n = 0
  · simp [pyNatStr, hn]
  · simp only [pyNatStr, if_neg hn]
    exact pyNatStrAux_ne_nil n n hn hn

theorem pyIntStr_ne_alpha_head (i : Int) (c : Char) (rest : List Char)
    (hc : 58 ≤ c.toNat) : pyIntStr i ≠ String.mk (c :: rest) := by
  intro h
  have hdata := congrArg String.data h
  by_cases hi : i < 0
  · simp only [pyIntStr, if_pos hi, str_data_append] at hdata
    have hcons : ('-' : Char) :: (pyNatStr i.natAbs).data = c :: rest := hdata
    have hhead : ('-' : Char) = c := (List.cons.injEq _ _ _ _ ▸ hcons).1
    have h45 : c.toNat = 45 := by rw [← hhead]; decide
    omega
  · simp only [pyIntStr, if_neg hi] at hdata
    have hmem : c ∈ (pyNatStr i.natAbs).data := by
      rw [hdata]; exact List.mem_cons_self _ _
    have := (pyNatStr_data_digits i.natAbs c hmem).2
    omega

/-! Claims C3 and C5: the source filter. -/

/-- C5: with a non-empty whitelist, `check_group_filters` allows a message
iff the decimal string of the source id, or the case-folded source name, is
a (case-folded) member of the whitelist; the blacklist has no effect on the
result in this branch. -/
theorem check_group_filters_whitelist_branch (whitelist blacklist : List String)
    (chat_id : Int) (chat_title : String) (hwl : whitelist ≠ []) :
    (check_group_filters whitelist blacklist chat_id chat_title =
      (whitelist.contains (pyIntStr chat_id) ||
        (whitelist.map pyLowerStr).contains (pyLowerStr chat_title))) ∧
    ∀ blacklist2 : List String,
      check_group_filters whitelist blacklist chat_id chat_title =
        check_group_filters whitelist blacklist2 chat_id chat_title := by
  have he := isEmpty_false_of_ne_nil whitelist hwl
  constructor
  · simp only [check_group_filters, he, Bool.not_false, if_pos]
    exact list_any_const whitelist _ hwl
  · intro blacklist2
    simp only [check_group_filters, he, Bool.not_false, if_pos]

/-- Witness for C5 at a concrete whitelist, source and (irrelevant) blacklist. -/
theorem check_group_filters_whitelist_branch_witness :
    (["123"] : List String) ≠ [] ∧
    ((check_group_filters ["123"] ["Bob Group"] 123 "Some Chat" =
      ((["123"] : List String).contains (pyIntStr 123) ||
        ((["123"] : List String).map pyLowerStr).contains (pyLowerStr "Some Chat"))) ∧
    ∀ blacklist2 : List String,
      check_group_filters ["123"] ["Bob Group"] 123 "Some Chat" =
        check_group_filters ["123"] blacklist2 123 "Some Chat") :=
  ⟨by decide, check_group_filters_whitelist_branch ["123"] ["Bob Group"] 123 "Some Chat" (by decide)⟩

/-- C3 counterexample: with whitelist `["Alice Group"]` and blacklist
`["Bob Group"]`, a message from the group named `"Bob Group"` is NOT
allowed — `check_group_filters` returns `false`, not `true` as the claim
(and the spec example in its section 8) states. -/
theorem check_group_filters_bob_group_counterexample :
    check_group_filters ["Alice Group"] ["Bob Group"] (-100123) "Bob Group" = false := by
  decide

/-- C3 amended: with whitelist `["Alice Group"]`, a message from
`"Bob Group"` is rejected (the non-empty whitelist admits only whitelisted
sources), and the blacklist has no effect — the result is `false` for every
blacklist and every source id. -/
theorem check_group_filters_bob_group_rejected (blacklist : List String) (chat_id : Int) :
    check_group_filters ["Alice Group"] blacklist chat_id "Bob Group" = false := by
  have hne : pyIntStr chat_id ≠ "Alice Group" :=
    pyIntStr_ne_alpha_head chat_id 'A'
      ("lice Group".data) (by decide)
  simp only [check_group_filters]
  have he : (["Alice Group"] : List String).isEmpty = false := rfl
  rw [he]
  simp only [Bool.not_false, if_pos]
  rw [list_any_const _ _ (by decide)]
  simp only [List.contains, List.map]
  have h1 : (pyIntStr chat_id == ("Alice Group" : String)) = false := by
    simp only [beq_eq_false_iff_ne, ne_eq]
    exact hne
  have h2 : (pyLowerStr "Bob Group" == pyLowerStr "Alice Group") = false := by decide
  simp [List.elem, h1, h2, pyLowerStr]

/-! Association-list (Python dict) lemmas for the dedup cache. -/

theorem dictLookup_insert_self (m : List (String × Int)) (k : String) (v : Int) :
    dictLookup (dictInsert m k v) k = some v := by
  induction m with
  | nil => simp [dictInsert, dictLookup]
  | cons p rest ih =>
    obtain ⟨k1, v1⟩ := p
    by_cases h : k1 = k
    · simp [dictInsert, dictLookup, h]
    · simp [dictInsert, dictLookup, h, ih]

theorem dictLookup_filter_none (m : List (String × Int)) (k : String)
    (p : String × Int → Bool) (h : dictLookup m k = none) :
    dictLookup (m.filter p) k = none := by
  induction m with
  | nil => simp [dictLookup]
  | cons q rest ih =>
    obtain ⟨k1, v1⟩ := q
    by_cases hk : k1 = k
    · simp [dictLookup, hk] at h
    · simp only [dictLookup, if_neg hk] at h
      by_cases hp : p (k1, v1) = true
      · simp [List.filter, hp, dictLookup, hk, ih h]
      · simp only [Bool.not_eq_true] at hp
        simp [List.filter, hp, ih h]

theorem dictLookup_filter_of_keep (m : List (String × Int)) (k : String) (v : Int)
    (p : String × Int → Bool) (h : dictLookup m k = some v) (hp : p (k, v) = true) :
    dictLookup (m.filter p) k = some v := by
  induction m with
  | nil => simp [dictLookup] at h
  | cons q rest ih =>
    obtain ⟨k1, v1⟩ := q
    by_cases hk : k1 = k
    · subst hk
      have h2 : v1 = v := by simpa [dictLookup] using h
      subst h2
      simp [List.filter, hp, dictLookup]
    · simp only [dictLookup, if_neg hk] at h
      by_cases hq : p (k1, v1) = true
      · simp [List.filter, hq, dictLookup, hk, ih h]
      · simp only [Bool.not_eq_true] at hq
        simp [List.filter, hq, ih h]

theorem dictLookup_none_of_not_mem (m : List (String × Int)) (k : String)
    (h : k ∉ m.map Prod.fst) : dictLookup m k = none := by
  induction m with
  | nil => simp [dictLookup]
  | cons q rest ih =>
    obtain ⟨k1, v1⟩ := q
    simp only [List.map, List.mem_cons, not_or] at h
    have hk : k1 ≠ k := fun he => h.1 he.symm
    simp [dictLookup, hk, ih h.2]

theorem dictLookup_filter_drop (m : List (String × Int)) (k : String) (v : Int)
    (p : String × Int → Bool) (hnd : keysNodup m) (h : dictLookup m k = some v)
    (hp : p (k, v) = false) : dictLookup (m.filter p) k = none := by
  induction m with
  | nil => simp [dictLookup] at h
  | cons q rest ih =>
    obtain ⟨k1, v1⟩ := q
    simp only [keysNodup, List.map, List.nodup_cons] at hnd
    by_cases hk : k1 = k
    · subst hk
      have h2 : v1 = v := by simpa [dictLookup] using h
      subst h2
      simp only [List.filter, hp]
      exact dictLookup_filter_none rest k1 p (dictLookup_none_of_not_mem rest k1 hnd.1)
    · simp only [dictLookup, if_neg hk] at h
      have hrest := ih hnd.2 h
      by_cases hq : p (k1, v1) = true
      · simp [List.filter, hq, dictLookup, hk, hrest]
      · simp only [Bool.not_eq_true] at hq
        simp [List.filter, hq, hrest]

theorem keysNodup_filter (m : List (String × Int)) (p : String × Int → Bool)
    (h : keysNodup m) : keysNodup (m.filter p) :=
  List.Nodup.sublist (List.Sublist.map Prod.fst (List.filter_sublist m)) h

theorem mem_keys_dictInsert (m : List (String × Int)) (k a : String) (v : Int)
    (h : a ∈ (dictInsert m k v).map Prod.fst) : a ∈ m.map Prod.fst ∨ a = k := by
  induction m with
  | nil => simp [dictInsert] at h; exact Or.inr h
  | cons q rest ih =>
    obtain ⟨k1, v1⟩ := q
    by_cases hk : k1 = k
    · subst hk
      simp only [dictInsert, if_pos rfl, List.map, List.mem_cons] at h
      rcases h with h | h
      · exact Or.inr h
      · exact Or.inl (by simp [h])
    · simp only [dictInsert, if_neg hk, List.map, List.mem_cons] at h
      rcases h with h | h
      · exact Or.inl (by simp [h])
      · rcases ih h with h2 | h2
        · exact Or.inl (List.mem_cons_of_mem _ h2)
        · exact Or.inr h2

theorem keysNodup_dictInsert (m : List (String × Int)) (k : String) (v : Int)
    (h : keysNodup m) : keysNodup (dictInsert m k v) := by
  induction m with
  | nil => simp [dictInsert, keysNodup]
  | cons q rest ih =>
    obtain ⟨k1, v1⟩ := q
    simp only [keysNodup, List.map, List.nodup_cons] at h
    by_cases hk : k1 = k
    · subst hk
      simp only [dictInsert, if_pos rfl, keysNodup, List.map, List.nodup_cons]
      exact ⟨h.1, h.2⟩
    · simp only [dictInsert, if_neg hk, keysNodup, List.map, List.nodup_cons]
      refine ⟨fun hmem => ?_, ih h.2⟩
      rcases mem_keys_dictInsert rest k k1 v hmem with h2 | h2
      · exact h.1 h2
      · exact hk h2

/-! Claim C2: the dedup check is fixed-window. -/

/-- C2: for a fixed fingerprint, a first call (no entry, given by
`dictLookup m0 fp = none`) returns `false` and stores the current time; a
second call within the TTL of the stored time returns `true` and does NOT
refresh the stored time; a later call whose distance to the stored time has
reached the TTL removes the entry, re-inserts it at the current time and
returns `false`.  `eh` is the configured `expiry_hours`, times are in
seconds (`timedelta(hours=eh)` is `eh * 3600`); `keysNodup` is the Python
dict representation invariant. -/
theorem is_duplicate_message_fixed_window
    (m0 : List (String × Int)) (fp : String) (eh now1 now2 now3 : Int)
    (hnd : keysNodup m0) (h0 : dictLookup m0 fp = none)
    (h12 : now2 - now1 < eh * 3600) (h13 : ¬ now3 - now1 < eh * 3600) :
    (is_duplicate_message eh now1 m0 fp).1 = false ∧
    dictLookup (is_duplicate_message eh now1 m0 fp).2 fp = some now1 ∧
    (is_duplicate_message eh now2 (is_duplicate_message eh now1 m0 fp).2 fp).1 = true ∧
    dictLookup
      (is_duplicate_message eh now2 (is_duplicate_message eh now1 m0 fp).2 fp).2 fp =
      some now1 ∧
    (is_duplicate_message eh now3
      (is_duplicate_message eh now2 (is_duplicate_message eh now1 m0 fp).2 fp).2 fp).1 =
      false ∧
    dictLookup
      (is_duplicate_message eh now3
        (is_duplicate_message eh now2 (is_duplicate_message eh now1 m0 fp).2 fp).2 fp).2
      fp = some now3 := by
  -- call 1
  set mc1 := if m0.length > 1000 then cleanup_old_hashes eh now1 m0 else m0 with hmc1
  have hl1 : dictLookup mc1 fp = none := by
    rw [hmc1]; split
    · exact dictLookup_filter_none m0 fp _ h0
    · exact h0
  have hnd1 : keysNodup mc1 := by
    rw [hmc1]; split
    · exact keysNodup_filter m0 _ hnd
    · exact hnd
  have e1 : is_duplicate_message eh now1 m0 fp = (false, dictInsert mc1 fp now1) := by
    rw [is_duplicate_message, ← hmc1, hl1]
  set m1 := dictInsert mc1 fp now1 with hm1
  have hl1' : dictLookup m1 fp = some now1 := dictLookup_insert_self mc1 fp now1
  have hnd1' : keysNodup m1 := keysNodup_dictInsert mc1 fp now1 hnd1
  -- call 2
  set mc2 := if m1.length > 1000 then cleanup_old_hashes eh now2 m1 else m1 with hmc2
  have hkeep2 : (fun p : String × Int => !(now2 - p.2 > eh * 3600)) (fp, now1) = true := by
    have h : ¬ (now2 - now1 > eh * 3600) := by omega
    simp [h]
  have hl2 : dictLookup mc2 fp = some now1 := by
    rw [hmc2]; split
    · exact dictLookup_filter_of_keep m1 fp now1 _ hl1' hkeep2
    · exact hl1'
  have hnd2 : keysNodup mc2 := by
    rw [hmc2]; split
    · exact keysNodup_filter m1 _ hnd1'
    · exact hnd1'
  have e2 : is_duplicate_message eh now2 m1 fp = (true, mc2) := by
    rw [is_duplicate_message, ← hmc2, hl2]
    exact if_pos h12
  -- call 3
  set mc3 := if mc2.length > 1000 then cleanup_old_hashes eh now3 mc2 else mc2 with hmc3
  have e3 : (is_duplicate_message eh now3 mc2 fp).1 = false ∧
      dictLookup (is_duplicate_message eh now3 mc2 fp).2 fp = some now3 := by
    by_cases hexp : now3 - now1 > eh * 3600
    · -- if the sweep runs it removes the entry; either way the final state
      -- holds the fresh time and the call reports not-a-duplicate
      by_cases hlen : mc2.length > 1000
      · have hdrop : (fun p : String × Int => !(now3 - p.2 > eh * 3600)) (fp, now1) = false := by
          simp [hexp]
        have hl3 : dictLookup (cleanup_old_hashes eh now3 mc2) fp = none :=
          dictLookup_filter_drop mc2 fp now1 _ hnd2 hl2 hdrop
        have e : is_duplicate_message eh now3 mc2 fp =
            (false, dictInsert (cleanup_old_hashes eh now3 mc2) fp now3) := by
          rw [is_duplicate_message, if_pos hlen, hl3]
        rw [e]
        exact ⟨rfl, dictLookup_insert_self _ fp now3⟩
      · have e : is_duplicate_message eh now3 mc2 fp =
            (false, dictInsert (dictErase mc2 fp) fp now3) := by
          rw [is_duplicate_message, if_neg hlen, hl2]
          exact if_neg h13
        rw [e]
        exact ⟨rfl, dictLookup_insert_self _ fp now3⟩
    · have hkeep3 : (fun p : String × Int => !(now3 - p.2 > eh * 3600)) (fp, now1) = true := by
        simp [hexp]
      have hl3 : dictLookup mc3 fp = some now1 := by
        rw [hmc3]; split
        · exact dictLookup_filter_of_keep mc2 fp now1 _ hl2 hkeep3
        · exact hl2
      have e : is_duplicate_message eh now3 mc2 fp =
          (false, dictInsert (dictErase mc3 fp) fp now3) := by
        rw [is_duplicate_message, ← hmc3, hl3]
        exact if_neg h13
      rw [e]
      exact ⟨rfl, dictLookup_insert_self _ fp now3⟩
  have hs1 : (is_duplicate_message eh now1 m0 fp).2 = m1 := by rw [e1]
  have hf2 : (is_duplicate_message eh now2 m1 fp).1 = true := by rw [e2]
  have hs2 : (is_duplicate_message eh now2 m1 fp).2 = mc2 := by rw [e2]
  exact ⟨by rw [e1], by rw [hs1]; exact hl1', by rw [hs1]; exact hf2,
    by rw [hs1, hs2]; exact hl2, by rw [hs1, hs2]; exact e3.1,
    by rw [hs1, hs2]; exact e3.2⟩

/-- Witness for C2: empty cache, TTL 24 hours, calls at 0 s, 10 s and
86400 s. -/
theorem is_duplicate_message_fixed_window_witness :
    keysNodup [] ∧ dictLookup [] "fp" = none ∧ ((10 : Int) - 0 < 24 * 3600) ∧
    ¬ ((86400 : Int) - 0 < 24 * 3600) ∧
    ((is_duplicate_message 24 0 [] "fp").1 = false ∧
    dictLookup (is_duplicate_message 24 0 [] "fp").2 "fp" = some 0 ∧
    (is_duplicate_message 24 10 (is_duplicate_message 24 0 [] "fp").2 "fp").1 = true ∧
    dictLookup
      (is_duplicate_message 24 10 (is_duplicate_message 24 0 [] "fp").2 "fp").2 "fp" =
      some 0 ∧
    (is_duplicate_message 24 86400
      (is_duplicate_message 24 10 (is_duplicate_message 24 0 [] "fp").2 "fp").2 "fp").1 =
      false ∧
    dictLookup
      (is_duplicate_message 24 86400
        (is_duplicate_message 24 10 (is_duplicate_message 24 0 [] "fp").2 "fp").2 "fp").2
      "fp" = some 86400) :=
  ⟨by simp [keysNodup], by decide, by decide, by decide,
    is_duplicate_message_fixed_window [] "fp" 24 0 10 86400 (by simp [keysNodup]) (by decide)
      (by decide) (by decide)⟩

/-! Claims C7 and C10: invalid patterns in the keyword scan. -/

theorem check_keywords_go_cons (R : ReSearchFn) (cs : Bool) (txt x : String)
    (xs : List String) :
    check_keywords_go R cs txt (x :: xs) = x :: check_keywords_go R cs txt xs ∨
    check_keywords_go R cs txt (x :: xs) = check_keywords_go R cs txt xs := by
  simp only [check_keywords_go]
  split
  · cases R.search x txt (!cs) with
    | none => exact Or.inr rfl
    | some b => cases b with
      | false => exact Or.inr rfl
      | true => exact Or.inl rfl
  · split <;> split
    · exact Or.inl rfl
    · exact Or.inr rfl
    · exact Or.inl rfl
    · exact Or.inr rfl

theorem check_keywords_go_skip (R : ReSearchFn) (cs : Bool) (txt kw : String)
    (xs : List String) (hk : isRegexKeyword kw = true)
    (hfail : R.search kw txt (!cs) = none) :
    check_keywords_go R cs txt (kw :: xs) = check_keywords_go R cs txt xs := by
  rw [check_keywords_go, hk]
  simp only [if_true, hfail]

/-- C7: a keyword classified as a pattern whose `re.search` raises
(`re.error`, oracle answer `none`) is skipped without aborting the scan —
deleting it from the keyword list does not change the result — and in
particular `["(unclosed", "python"]` against `"I love python"` yields
exactly `["python"]` (for any oracle on which `"(unclosed"` fails, as it
does in Python, where the pattern does not compile). -/
theorem check_keywords_invalid_pattern_skipped (R : ReSearchFn) (case_sensitive : Bool)
    (message_text : String) (l1 l2 : List String) (kw : String)
    (hk : isRegexKeyword kw = true)
    (hfail : R.search kw message_text (!case_sensitive) = none)
    (hbad : R.search "(unclosed" "I love python" (!false) = none) :
    check_keywords R case_sensitive (l1 ++ kw :: l2) message_text =
      check_keywords R case_sensitive (l1 ++ l2) message_text ∧
    check_keywords R false ["(unclosed", "python"] "I love python" = ["python"] := by
  constructor
  · rw [check_keywords, check_keywords]
    split
    · rfl
    · induction l1 with
      | nil =>
        simp only [List.nil_append]
        exact check_keywords_go_skip R case_sensitive message_text kw l2 hk hfail
      | cons x xs ih =>
        simp only [List.cons_append]
        rw [check_keywords_go, check_keywords_go]
        rw [ih]
  · rw [check_keywords, if_neg (by decide)]
    rw [check_keywords_go_skip R false "I love python" "(unclosed" ["python"] (by decide) hbad]
    have h2 : isRegexKeyword "python" = false := by decide
    have h3 : strContainsSub (pyLowerStr "I love python") (pyLowerStr "python") = true := by
      decide
    simp [check_keywords_go, h2, h3]

/-- Witness for C7 with the everywhere-failing regex oracle. -/
theorem check_keywords_invalid_pattern_skipped_witness :
    isRegexKeyword "(unclosed" = true ∧
    (check_keywords (ReSearchFn.mk (fun _ _ _ => none)) false
        (["xyz"] ++ "(unclosed" :: ["love"]) "I love python" =
      check_keywords (ReSearchFn.mk (fun _ _ _ => none)) false
        (["xyz"] ++ ["love"]) "I love python" ∧
    check_keywords (ReSearchFn.mk (fun _ _ _ => none)) false
      ["(unclosed", "python"] "I love python" = ["python"]) :=
  ⟨by decide,
    check_keywords_invalid_pattern_skipped (ReSearchFn.mk (fun _ _ _ => none)) false
      "I love python" ["xyz"] ["love"] "(unclosed" (by decide) rfl rfl⟩

/-- C10: a keyword classified as a pattern whose search raises is never
reported as a match against any text — there is no fallback to literal
substring matching, so it is absent from the result for every keyword list
and text, even a text containing it verbatim. -/
theorem check_keywords_no_literal_fallback (R : ReSearchFn) (case_sensitive : Bool)
    (keywords : List String) (message_text : String) (kw : String)
    (hk : isRegexKeyword kw = true)
    (hfail : R.search kw message_text (!case_sensitive) = none) :
    kw ∉ check_keywords R case_sensitive keywords message_text := by
  rw [check_keywords]
  split
  · simp
  · induction keywords with
    | nil => simp [check_keywords_go]
    | cons x xs ih =>
      by_cases hx : x = kw
      · subst hx
        rw [check_keywords_go_skip R case_sensitive message_text x xs hk hfail]
        exact ih
      · rcases check_keywords_go_cons R case_sensitive message_text x xs with he | he
        · rw [he]
          intro hmem
          rcases List.mem_cons.mp hmem with h | h
          · exact hx h.symm
          · exact ih h
        · rw [he]
          exact ih

/-- Witness for C10: the invalid pattern `"(unclosed"` matches nothing, even
a text containing it verbatim. -/
theorem check_keywords_no_literal_fallback_witness :
    isRegexKeyword "(unclosed" = true ∧
    "(unclosed" ∉ check_keywords (ReSearchFn.mk (fun _ _ _ => none)) false
      ["(unclosed"] "xx(unclosedyy" :=
  ⟨by decide,
    check_keywords_no_literal_fallback (ReSearchFn.mk (fun _ _ _ => none)) false
      ["(unclosed"] "xx(unclosedyy" "(unclosed" (by decide) rfl⟩

/-! Decimal rendering: roundtrip and injectivity. -/

theorem digitsVal_append_digit (l : List Char) (c : Char) :
    digitsVal (l ++ [c]) = digitsVal l * 10 + (c.toNat - 48) := by
  simp [digitsVal, List.foldl_append]

theorem natDigitChar_toNat (d : Nat) (h : d < 10) : (natDigitChar d).toNat = 48 + d := by
  interval_cases d <;> decide

theorem pyNatStrAux_val : ∀ fuel n, n ≤ fuel → digitsVal (pyNatStrAux fuel n) = n := by
  intro fuel
  induction fuel with
  | zero =>
    intro n hn
    have : n = 0 := Nat.le_zero.mp hn
    subst this
    rfl
  | succ fuel ih =>
    intro n hn
    by_cases h0 : n = 0
    · subst h0; simp [pyNatStrAux, digitsVal]
    · rw [pyNatStrAux, if_neg h0, digitsVal_append_digit]
      have hdiv : n / 10 ≤ fuel := by
        have : n / 10 < n := Nat.div_lt_self (Nat.pos_of_ne_zero h0) (by norm_num)
        omega
      rw [ih (n / 10) hdiv, natDigitChar_toNat (n % 10) (Nat.mod_lt _ (by norm_num))]
      omega

theorem pyNatStr_injective : Function.Injective pyNatStr := by
  intro a b h
  by_cases ha : a = 0 <;> by_cases hb : b = 0
  · omega
  · exfalso
    rw [pyNatStr, pyNatStr, if_pos ha, if_neg hb] at h
    have hd : ("0" : String).data = pyNatStrAux b b := congrArg String.data h
    have hv := congrArg digitsVal hd
    rw [pyNatStrAux_val b b le_rfl] at hv
    have : digitsVal ("0" : String).data = 0 := by decide
    omega
  · exfalso
    rw [pyNatStr, pyNatStr, if_neg ha, if_pos hb] at h
    have hd : pyNatStrAux a a = ("0" : String).data := congrArg String.data h
    have hv := congrArg digitsVal hd
    rw [pyNatStrAux_val a a le_rfl] at hv
    have : digitsVal ("0" : String).data = 0 := by decide
    omega
  · rw [pyNatStr, pyNatStr, if_neg ha, if_neg hb] at h
    have hd : pyNatStrAux a a = pyNatStrAux b b := congrArg String.data h
    have hv := congrArg digitsVal hd
    rw [pyNatStrAux_val a a le_rfl, pyNatStrAux_val b b le_rfl] at hv
    exact hv

theorem pyIntStr_injective : Function.Injective pyIntStr := by
  intro a b h
  by_cases ha : a < 0 <;> by_cases hb : b < 0
  · rw [pyIntStr, pyIntStr, if_pos ha, if_pos hb] at h
    have hd := congrArg String.data h
    rw [str_data_append, str_data_append] at hd
    have habs : a.natAbs = b.natAbs :=
      pyNatStr_injective (String.ext (List.append_cancel_left hd))
    omega
  · exfalso
    rw [pyIntStr, pyIntStr, if_pos ha, if_neg hb] at h
    have hd := congrArg String.data h
    rw [str_data_append] at hd
    have hmem : ('-' : Char) ∈ (pyNatStr b.natAbs).data := by
      rw [← hd]; exact List.mem_cons_self _ _
    have := (pyNatStr_data_digits b.natAbs '-' hmem).1
    have h45 : ('-' : Char).toNat = 45 := by decide
    omega
  · exfalso
    rw [pyIntStr, pyIntStr, if_neg ha, if_pos hb] at h
    have hd := congrArg String.data h.symm
    rw [str_data_append] at hd
    have hmem : ('-' : Char) ∈ (pyNatStr a.natAbs).data := by
      rw [← hd]; exact List.mem_cons_self _ _
    have := (pyNatStr_data_digits a.natAbs '-' hmem).1
    have h45 : ('-' : Char).toNat = 45 := by decide
    omega
  · rw [pyIntStr, pyIntStr, if_neg ha, if_neg hb] at h
    have habs : a.natAbs = b.natAbs := pyNatStr_injective h
    omega

/-! Claim C8: sender sensitivity of the dedup fingerprint. -/

/-- C8: for identical text and `include_sender=true`, two different present
sender ids give different fingerprints (for any injective digest — the MD5
inputs themselves differ); with `include_sender=false` the fingerprint is
identical regardless of the sender id, for every digest function. -/
theorem generate_message_hash_sender_sensitivity (md5hex : String → String)
    (message_text : String) (a b : Int)
    (hinj : Function.Injective md5hex) (hab : a ≠ b) :
    generate_message_hash md5hex true message_text (some a) ≠
      generate_message_hash md5hex true message_text (some b) ∧
    ∀ md5f : String → String, ∀ s1 s2 : Option Int,
      generate_message_hash md5f false message_text s1 =
        generate_message_hash md5f false message_text s2 := by
  constructor
  · intro h
    have hin := hinj h
    simp only [generate_hash_input] at hin
    have hd := congrArg String.data hin
    rw [str_data_append, str_data_append] at hd
    have hsuf : senderSuffix true (some a) = senderSuffix true (some b) :=
      String.ext (List.append_cancel_left hd)
    by_cases ha0 : a = 0 <;> by_cases hb0 : b = 0
    · exact hab (ha0.trans hb0.symm)
    · simp only [senderSuffix, ha0, hb0] at hsuf
      rw [if_neg (by simp), if_pos (by simp [hb0])] at hsuf
      have := congrArg String.data hsuf
      rw [str_data_append] at this
      exact absurd this (by simp)
    · simp only [senderSuffix, ha0, hb0] at hsuf
      rw [if_pos (by simp [ha0]), if_neg (by simp)] at hsuf
      have := congrArg String.data hsuf.symm
      rw [str_data_append] at this
      exact absurd this (by simp)
    · simp only [senderSuffix] at hsuf
      rw [if_pos (by simp [ha0]), if_pos (by simp [hb0])] at hsuf
      have hd2 := congrArg String.data hsuf
      rw [str_data_append, str_data_append] at hd2
      exact hab (pyIntStr_injective (String.ext (List.append_cancel_left hd2)))
  · intro md5f s1 s2
    cases s1 <;> cases s2 <;>
      simp [generate_message_hash, generate_hash_input, senderSuffix]

/-- Witness for C8 with the identity digest and sender ids 1 and 2. -/
theorem generate_message_hash_sender_sensitivity_witness :
    (1 : Int) ≠ 2 ∧
    (generate_message_hash (fun s => s) true "hello world" (some 1) ≠
      generate_message_hash (fun s => s) true "hello world" (some 2) ∧
    ∀ md5f : String → String, ∀ s1 s2 : Option Int,
      generate_message_hash md5f false "hello world" s1 =
        generate_message_hash md5f false "hello world" s2) :=
  ⟨by decide,
    generate_message_hash_sender_sensitivity (fun s => s) "hello world" 1 2
      (fun _ _ h => h) (by decide)⟩

/-! Claim C9: the short-message marker. -/

theorem generate_hash_input_short_eq (t : String) (include_sender : Bool)
    (sid : Option Int) (h : (normalizePy t).length < 3) :
    generate_hash_input include_sender t sid =
      ("short_msg_" ++ pyNatStr (normalizePy t).length ++ "_" ++ normalizePy t) ++
        senderSuffix include_sender sid := by
  simp only [generate_hash_input, if_pos h]

theorem short_marker_inj (n1 n2 : Nat) (s1 s2 : String) (h1 : n1 < 3) (h2 : n2 < 3)
    (h : "short_msg_" ++ pyNatStr n1 ++ "_" ++ s1 = "short_msg_" ++ pyNatStr n2 ++ "_" ++ s2) :
    s1 = s2 := by
  have hd := congrArg String.data h
  simp only [str_data_append, List.append_assoc] at hd
  have hd2 := List.append_cancel_left hd
  have p0 : pyNatStr 0 = "0" := rfl
  have p1 : pyNatStr 1 = "1" := rfl
  have p2 : pyNatStr 2 = "2" := rfl
  have e1 : n1 = 0 ∨ n1 = 1 ∨ n1 = 2 := by omega
  have e2 : n2 = 0 ∨ n2 = 1 ∨ n2 = 2 := by omega
  rcases e1 with rfl | rfl | rfl <;> rcases e2 with rfl | rfl | rfl <;>
    simp only [p0, p1, p2] at hd2 <;>
    obtain ⟨hpre, hsuf⟩ := List.append_inj hd2 (by decide) <;>
    first
    | exact absurd hpre (by decide)
    | exact String.ext (List.append_cancel_left hsuf)

/-- C9 counterexample: the marker embeds the NORMALIZED text's length, not
the original message's (for `"  a"`, length 3, the marker reads
`short_msg_1_a`), and two distinct very-short messages with equal
normalization (`"a"` and `"A"`) receive the same hash input, hence the same
fingerprint under any digest. -/
theorem generate_hash_input_short_collision_counterexample :
    ("a" : String) ≠ "A" ∧
    generate_hash_input true "a" none = generate_hash_input true "A" none ∧
    ("  a" : String).length = 3 ∧
    generate_hash_input true "  a" none = "short_msg_1_a" := by
  refine ⟨by decide, by decide, by decide, by decide⟩

/-- C9 amended: when the normalized text is shorter than three characters,
the hash input is the marker `short_msg_{len}_{text}` built from the
NORMALIZED text's length and content (plus the sender suffix), and two
short messages with distinct normalized forms receive distinct hash inputs
— hence distinct fingerprints under any injective digest. -/
theorem generate_hash_input_short_marker (t : String) (include_sender : Bool)
    (sid : Option Int) (h : (normalizePy t).length < 3) :
    generate_hash_input include_sender t sid =
      ("short_msg_" ++ pyNatStr (normalizePy t).length ++ "_" ++ normalizePy t) ++
        senderSuffix include_sender sid ∧
    ∀ t2 : String, (normalizePy t2).length < 3 → normalizePy t ≠ normalizePy t2 →
      ∀ md5hex : String → String, Function.Injective md5hex →
        generate_message_hash md5hex include_sender t sid ≠
          generate_message_hash md5hex include_sender t2 sid := by
  refine ⟨generate_hash_input_short_eq t include_sender sid h, ?_⟩
  intro t2 h2 hne md5hex hinj heq
  have hin := hinj heq
  rw [generate_hash_input_short_eq t include_sender sid h,
    generate_hash_input_short_eq t2 include_sender sid h2] at hin
  have hd := congrArg String.data hin
  rw [str_data_append, str_data_append] at hd
  have hmk := String.ext (List.append_cancel_right hd)
  exact hne (short_marker_inj _ _ _ _ h h2 hmk)

/-- Witness for C9 amended: `""` and `"a"` normalize differently and get
distinct fingerprints under the identity digest. -/
theorem generate_hash_input_short_marker_witness :
    (normalizePy "").length < 3 ∧ (normalizePy "a").length < 3 ∧
    normalizePy "" ≠ normalizePy "a" ∧
    (generate_hash_input false "" none =
      ("short_msg_" ++ pyNatStr (normalizePy "").length ++ "_" ++ normalizePy "") ++
        senderSuffix false none ∧
    ∀ t2 : String, (normalizePy t2).length < 3 → normalizePy "" ≠ normalizePy t2 →
      ∀ md5hex : String → String, Function.Injective md5hex →
        generate_message_hash md5hex false "" none ≠
          generate_message_hash md5hex false t2 none) :=
  ⟨by decide, by decide, by decide,
    generate_hash_input_short_marker "" false none (by decide)⟩

/-! Claim C6: `/duplicates hours` validation and persistence. -/

theorem status_response_infix (cfg2 : Config) :
    ("Hash-Gültigkeit: " ++ pyIntStr (dupExpiryHours cfg2) ++ " Stunden").data <:+:
      (duplicates_status_response cfg2).data := by
  refine ⟨("🔄 **Duplikat-Erkennung Einstellungen:**\n\n" ++ "Status: " ++
      (if (cfg2.duplicate_detection.getD {}).enabled.getD true then "✅ Aktiviert"
        else "❌ Deaktiviert") ++ "\n").data,
    ("\n" ++ "Absender berücksichtigen: " ++
      (if (cfg2.duplicate_detection.getD {}).include_sender.getD true then "Ja" else "Nein") ++
      "\n\n" ++ "**Verfügbare Befehle:**\n" ++
      "• `/duplicates on` - Duplikat-Erkennung aktivieren\n" ++
      "• `/duplicates off` - Duplikat-Erkennung deaktivieren\n" ++
      "• `/duplicates hours <zahl>` - Hash-Gültigkeit setzen\n" ++
      "• `/duplicates sender on/off` - Absender-Berücksichtigung\n").data, ?_⟩
  have hsplit : ([' ', 'S', 't', 'u', 'n', 'd', 'e', 'n', '\n'] : List Char) =
      [' ', 'S', 't', 'u', 'n', 'd', 'e', 'n'] ++ ['\n'] := by decide
  simp only [duplicates_status_response, dupExpiryHours, str_data_append, hsplit,
    List.append_assoc]

/-- C6: `/duplicates hours <arg>` with a non-numeric argument or a value
outside `[1, 168]` returns an error response (leading `❌` glyph) and leaves
the persisted configuration exactly unchanged; with `n` in `[1, 168]` it
persists `expiry_hours = n`, which a subsequent no-argument `/duplicates`
response reports (`Hash-Gültigkeit: n Stunden` appears in it). -/
theorem manage_duplicates_hours_validation (md5hex : String → String) (cfg : Config)
    (bad good : String) (n : Int)
    (hbad : pyParseInt bad = none ∨ ∃ m : Int, pyParseInt bad = some m ∧ (m < 1 ∨ m > 168))
    (hgood : pyParseInt good = some n) (h1 : 1 ≤ n) (h2 : n ≤ 168) :
    (strStartsWith (manage_duplicates md5hex cfg ["hours", bad]).1 "❌" = true ∧
      (manage_duplicates md5hex cfg ["hours", bad]).2 = cfg) ∧
    dupExpiryHours (manage_duplicates md5hex cfg ["hours", good]).2 = n ∧
    ("Hash-Gültigkeit: " ++ pyIntStr n ++ " Stunden").data <:+:
      (manage_duplicates md5hex (manage_duplicates md5hex cfg ["hours", good]).2 []).1.data := by
  have hh : pyLowerStr "hours" = "hours" := by decide
  have hrange : ¬ (n < 1 ∨ n > 168) := by omega
  have hn : dupExpiryHours (manage_duplicates md5hex cfg ["hours", good]).2 = n := by
    cases hdd : cfg.duplicate_detection with
    | none =>
      simp [manage_duplicates, hh, hgood, hdd, if_neg hrange, dupExpiryHours]
    | some d =>
      simp [manage_duplicates, hh, hgood, hdd, if_neg hrange, dupExpiryHours]
  refine ⟨?_, hn, ?_⟩
  · rcases hbad with hnone | ⟨m, hsome, hr⟩
    · have e : manage_duplicates md5hex cfg ["hours", bad] =
          ("❌ Ungültige Zahl. Beispiel: `/duplicates hours 12`", cfg) := by
        simp [manage_duplicates, hh, hnone]
      rw [e]
      refine ⟨?_, rfl⟩
      show strStartsWith "❌ Ungültige Zahl. Beispiel: `/duplicates hours 12`" "❌" = true
      decide
    · have e : manage_duplicates md5hex cfg ["hours", bad] =
          ("❌ Stunden müssen zwischen 1 und 168 (1 Woche) liegen.", cfg) := by
        simp [manage_duplicates, hh, hsome, if_pos hr]
      rw [e]
      refine ⟨?_, rfl⟩
      show strStartsWith "❌ Stunden müssen zwischen 1 und 168 (1 Woche) liegen." "❌" = true
      decide
  · have e : (manage_duplicates md5hex (manage_duplicates md5hex cfg ["hours", good]).2 []).1 =
        duplicates_status_response (manage_duplicates md5hex cfg ["hours", good]).2 := rfl
    rw [e, ← hn]
    exact status_response_infix _

/-- Witness for C6 with `bad = "200"`, `good = "48"`. -/
theorem manage_duplicates_hours_validation_witness :
    pyParseInt "48" = some 48 ∧
    ((strStartsWith (manage_duplicates (fun s => s) cfg0 ["hours", "200"]).1 "❌" = true ∧
      (manage_duplicates (fun s => s) cfg0 ["hours", "200"]).2 = cfg0) ∧
    dupExpiryHours (manage_duplicates (fun s => s) cfg0 ["hours", "48"]).2 = 48 ∧
    ("Hash-Gültigkeit: " ++ pyIntStr 48 ++ " Stunden").data <:+:
      (manage_duplicates (fun s => s)
        (manage_duplicates (fun s => s) cfg0 ["hours", "48"]).2 []).1.data) :=
  ⟨by decide,
    manage_duplicates_hours_validation (fun s => s) cfg0 "200" "48" 48
      (Or.inr ⟨200, by decide, by decide⟩) (by decide) (by decide) (by decide)⟩

/-! Evaluation lemmas for the dispatch monad. -/

theorem dpM_bind_run {α β : Type} (m : DpM α) (f : α → DpM β) (s : DpSt) :
    (m >>= f) s =
      match m s with
      | (.ok a, s2) => f a s2
      | (.error e, s2) => (.error e, s2) := rfl

theorem dpM_pure_run {α : Type} (a : α) (s : DpSt) :
    (pure a : DpM α) s = (.ok a, s) := rfl

theorem dpLog_run (level : LogLevel) (msg : String) (s : DpSt) :
    dpLog level msg s = (.ok (), {s with logs := s.logs ++ [⟨level, msg⟩]}) := rfl

theorem dpGetCfg_run (s : DpSt) : dpGetCfg s = (.ok s.cfg, s) := rfl

theorem dpSetCfg_run (cfg : Config) (s : DpSt) :
    dpSetCfg cfg s = (.ok (), {s with cfg := cfg}) := rfl

theorem dpFail_run {α : Type} (s : DpSt) : (dpFail : DpM α) s = (.error (), s) := rfl

theorem dpTry_run {α : Type} (m : DpM α) (h : Unit → DpM α) (s : DpSt) :
    dpTry m h s =
      match m s with
      | (.ok a, s2) => (.ok a, s2)
      | (.error e, s2) => h e s2 := rfl

theorem sendMessage_run (t : Transport) (tgt : TgtRef) (txt : String) (s : DpSt) :
    sendMessage t tgt txt s = (t.op s.k (.send tgt txt), {s with k := s.k + 1}) := rfl

theorem forwardMessages_run (t : Transport) (tgt : TgtRef) (s : DpSt) :
    forwardMessages t tgt s = (t.op s.k (.forward tgt), {s with k := s.k + 1}) := rfl

theorem dpMe_run (t : Transport) (s : DpSt) :
    dpMe t s = (t.me s.k, {s with k := s.k + 1}) := rfl

theorem dpEntity_run (t : Transport) (ref : String) (s : DpSt) :
    dpEntity t ref s = (t.entityOf s.k ref, {s with k := s.k + 1}) := rfl

theorem dpPerms_run (t : Transport) (s : DpSt) :
    dpPerms t s = (t.perms s.k, {s with k := s.k + 1}) := rfl

theorem dpJoin_run (t : Transport) (invite_hash : String) (s : DpSt) :
    dpJoin t invite_hash s = (t.joinInvite s.k invite_hash, {s with k := s.k + 1}) := rfl

/-! Claim C4: forms of the persisted notification target. -/

theorem ensure_channel_access_target_forms (t : Transport) (s : DpSt) :
    (ensure_channel_access t s).2.cfg.telegram.notification_target =
      s.cfg.telegram.notification_target ∨
    (ensure_channel_access t s).2.cfg.telegram.notification_target = "me" ∨
    ∃ i : Int, (ensure_channel_access t s).2.cfg.telegram.notification_target =
      "-100" ++ pyIntStr i := by
  rw [ensure_channel_access]
  simp only [dpTry_run, dpM_bind_run, dpGetCfg_run]
  cases hinv : s.cfg.telegram.invite_hash with
  | none => simp [dpM_pure_run]
  | some ih =>
    simp only [dpM_bind_run, dpLog_run, dpTry_run, dpJoin_run, dpSetCfg_run, sendMessage_run,
      dpM_pure_run, apply_ite (fun m : DpM Unit => m s)]
    by_cases hcond : s.cfg.telegram.needs_join = true ∧ ih ≠ "" ∧
        s.cfg.telegram.notification_target ≠ "me"
    · rw [if_pos hcond]
      cases hj : t.joinInvite s.k ih with
      | error e =>
        simp [hj]
        split <;>
          · rename_i heq
            rw [Prod.mk.injEq] at heq
            rw [← heq.2]
            simp
      | ok chats =>
        cases chats with
        | nil => simp [hj, dpM_pure_run]
        | cons channel rest =>
          simp [hj, dpM_bind_run, dpSetCfg_run, dpLog_run, sendMessage_run, dpM_pure_run]
          split
          · rename_i heq
            split at heq
            · rename_i heq2
              rw [Prod.mk.injEq] at heq heq2
              rw [← heq.2, ← heq2.2]
              exact Or.inr (Or.inr ⟨channel.id, rfl⟩)
            · rename_i heq2
              rw [Prod.mk.injEq] at heq
              rw [← heq.2]
              simp
          · rename_i heq
            split at heq
            · rename_i heq2
              rw [Prod.mk.injEq] at heq
              exact Except.noConfusion heq.1
            · rename_i heq2
              rw [Prod.mk.injEq] at heq
              rw [← heq.2]
              simp
    · rw [if_neg hcond]
      simp

/-- C4 counterexample: `/target set --5` is ACCEPTED (Python's
`lstrip("-")` strips every leading dash, so `"--5".lstrip("-").isdigit()`
holds) and persists the target `"--5"`, which is not `"me"`, does not start
with `@`, and is not a signed integer literal — the claimed invariant fails
on a reachable persisted configuration. -/
theorem manage_notification_target_accepts_double_dash :
    (manage_notification_target cfg0 "" ["set", "--5"]).2.telegram.notification_target =
      "--5" ∧
    spec_target_form "--5" = false := by
  refine ⟨by decide, by decide⟩

/-- C4 amended: `/target set` rejects (error response, no mutation) exactly
the arguments failing the code's check — not `"me"`, not `@`-prefixed, and
not all-digits after stripping every leading dash — and persists any
argument passing it (including non-literals such as `"--5"`);
`ensure_channel_access` only ever persists the prior target, `"me"`, or a
`"-100"`-prefixed id. -/
theorem notification_target_persistence_forms (cfg : Config) (now : String)
    (sbad sok : String)
    (hbad : target_format_ok sbad = false) (hok : target_format_ok sok = true) :
    (strStartsWith (manage_notification_target cfg now ["set", sbad]).1 "❌" = true ∧
      (manage_notification_target cfg now ["set", sbad]).2 = cfg) ∧
    (manage_notification_target cfg now ["set", sok]).2.telegram.notification_target = sok ∧
    ∀ (t : Transport) (s : DpSt),
      (ensure_channel_access t s).2.cfg.telegram.notification_target =
        s.cfg.telegram.notification_target ∨
      (ensure_channel_access t s).2.cfg.telegram.notification_target = "me" ∨
      ∃ i : Int, (ensure_channel_access t s).2.cfg.telegram.notification_target =
        "-100" ++ pyIntStr i := by
  have hset : pyLowerStr "set" = "set" := by decide
  refine ⟨?_, ?_, fun t s => ensure_channel_access_target_forms t s⟩
  · have e : manage_notification_target cfg now ["set", sbad] =
        ("❌ Ungültiges Ziel-Format.\n\nVerwenden Sie: \x27me\x27, \x27@channel_name\x27 oder \x27-1001234567890\x27",
          cfg) := by
      simp [manage_notification_target, hset, hbad]
    rw [e]
    refine ⟨?_, rfl⟩
    show strStartsWith "❌ Ungültiges Ziel-Format.\n\nVerwenden Sie: \x27me\x27, \x27@channel_name\x27 oder \x27-1001234567890\x27" "❌" = true
    decide
  · simp [manage_notification_target, hset, hok]

/-- Witness for C4 amended: `"abc"` is rejected, `"@chan"` accepted. -/
theorem notification_target_persistence_forms_witness :
    target_format_ok "abc" = false ∧ target_format_ok "@chan" = true ∧
    ((strStartsWith (manage_notification_target cfg0 "t0" ["set", "abc"]).1 "❌" = true ∧
      (manage_notification_target cfg0 "t0" ["set", "abc"]).2 = cfg0) ∧
    (manage_notification_target cfg0 "t0" ["set", "@chan"]).2.telegram.notification_target =
      "@chan" ∧
    ∀ (t : Transport) (s : DpSt),
      (ensure_channel_access t s).2.cfg.telegram.notification_target =
        s.cfg.telegram.notification_target ∨
      (ensure_channel_access t s).2.cfg.telegram.notification_target = "me" ∨
      ∃ i : Int, (ensure_channel_access t s).2.cfg.telegram.notification_target =
        "-100" ++ pyIntStr i) :=
  ⟨by decide, by decide,
    notification_target_persistence_forms cfg0 "t0" "abc" "@chan" (by decide) (by decide)⟩
theorem ensure_allfail (t : Transport) (hFail : TransportAllFail t) (s : DpSt) :
    ∃ s2, ensure_channel_access t s = (.ok (), s2) ∧ s2.cfg.settings = s.cfg.settings := by
  obtain ⟨hop, hme, hent, hperm, hjoin⟩ := hFail
  rw [ensure_channel_access]
  simp only [dpTry_run, dpM_bind_run, dpGetCfg_run]
  cases hinv : s.cfg.telegram.invite_hash with
  | none => exact ⟨s, by simp [dpM_pure_run], rfl⟩
  | some ih =>
    simp only [dpM_bind_run, dpLog_run, dpTry_run, dpJoin_run, dpSetCfg_run, sendMessage_run,
      dpM_pure_run, apply_ite (fun m : DpM Unit => m s), hjoin, hop]
    by_cases hcond : s.cfg.telegram.needs_join = true ∧ ih ≠ "" ∧
        s.cfg.telegram.notification_target ≠ "me"
    · rw [if_pos hcond]
      simp [hjoin, hop]
    · rw [if_neg hcond]
      exact ⟨s, rfl, rfl⟩

theorem validate_target_allfail (t : Transport) (hFail : TransportAllFail t)
    (target : String) (s : DpSt) :
    ∃ s2, validate_notification_target t target s = (.ok true, s2) ∧ s2.cfg = s.cfg := by
  obtain ⟨hop, hme, hent, hperm, hjoin⟩ := hFail
  rw [validate_notification_target]
  by_cases hm : target = "me"
  · simp [hm, dpTry_run, dpM_bind_run, dpM_pure_run]
  · simp [hm, dpTry_run, dpM_bind_run, dpEntity_run, hent, dpLog_run, dpM_pure_run]

theorem fallbackLoop_allfail (t : Transport) (hFail : TransportAllFail t)
    (notification : String) (hm : Bool) (tgts : List TgtRef) :
    ∀ s, ∃ s2, fallbackLoop t notification hm tgts s = (.ok false, s2) := by
  induction tgts with
  | nil => intro s; exact ⟨s, rfl⟩
  | cons tgt rest ih =>
    intro s
    obtain ⟨hop, hme, hent, hperm, hjoin⟩ := hFail
    rw [fallbackLoop]
    simp only [dpTry_run, dpM_bind_run, sendMessage_run, forwardMessages_run, dpLog_run,
      dpM_pure_run, hop]
    cases hm with
    | true =>
      simp only [if_true, dpM_bind_run, forwardMessages_run, hop, dpLog_run, dpM_pure_run]
      exact ih _
    | false =>
      simp only [Bool.false_eq_true, if_false, dpM_bind_run, sendMessage_run, hop, dpLog_run,
        dpM_pure_run]
      exact ih _

theorem send_notification_fallback_allfail (t : Transport) (hFail : TransportAllFail t)
    (target notif : String) (hm : Bool) (s : DpSt) :
    ∃ s2, send_notification_fallback t target notif hm s = (.ok (), s2) ∧
      (⟨.info, "NOTIFICATION: " ++ notif⟩ : LogEntry) ∈ s2.logs := by
  obtain ⟨hop, hme, hent, hperm, hjoin⟩ := hFail
  rw [send_notification_fallback]
  simp only [dpTry_run, dpM_bind_run, dpLog_run, dpMe_run, sendMessage_run,
    forwardMessages_run, dpFail_run, dpM_pure_run, hop, hme]
  by_cases htgt : target ≠ "me"
  · simp only [if_pos htgt]
    by_cases hdig : pyIsDigitStr (pyLstripDash target) = true
    · simp only [hdig, if_true]
      cases hparse : pyParseInt target with
      | none =>
        simp [dpM_bind_run, dpFail_run, Prod.mk.injEq]
      | some n =>
        obtain ⟨sL, hL⟩ := fallbackLoop_allfail t ⟨hop, hme, hent, hperm, hjoin⟩ notif hm
          [TgtRef.int n] s
        simp [dpM_bind_run, dpM_pure_run, hL, dpFail_run, Prod.mk.injEq]
    · simp only [Bool.not_eq_true] at hdig
      simp only [hdig, Bool.false_eq_true, if_false]
      by_cases hat : strStartsWith target "@" = true
      · simp only [hat, if_true]
        obtain ⟨sL, hL⟩ := fallbackLoop_allfail t ⟨hop, hme, hent, hperm, hjoin⟩ notif hm
          [TgtRef.str target, TgtRef.str (target.drop 1)] s
        simp [dpM_bind_run, dpM_pure_run, hL, dpFail_run, Prod.mk.injEq]
      · simp only [Bool.not_eq_true] at hat
        simp only [hat, Bool.false_eq_true, if_false]
        obtain ⟨sL, hL⟩ := fallbackLoop_allfail t ⟨hop, hme, hent, hperm, hjoin⟩ notif hm
          [TgtRef.str ("@" ++ target), TgtRef.str target] s
        simp [dpM_bind_run, dpM_pure_run, hL, dpFail_run, Prod.mk.injEq]
  · simp only [if_neg htgt]
    simp [dpM_bind_run, dpMe_run, hme, Prod.mk.injEq]

theorem send_notification_primary_allfail (t : Transport) (hFail : TransportAllFail t)
    (cfg : Config) (a : AlertArgs) (notif : String) (hm : Bool)
    (hatt : attempts_delivery cfg.settings hm = true) (s : DpSt) :
    ∃ s2, send_notification_primary t cfg a notif hm s = (.error (), s2) := by
  obtain ⟨hop, hme, hent, hperm, hjoin⟩ := hFail
  obtain ⟨sv, hv, _⟩ := validate_target_allfail t ⟨hop, hme, hent, hperm, hjoin⟩
    cfg.telegram.notification_target s
  rw [send_notification_primary]
  simp only [dpM_bind_run, hv]
  by_cases hs : cfg.settings.notification_mode = "both" ∨
      cfg.settings.notification_mode = "saved_messages_only"
  · simp [if_pos hs, dpM_bind_run, sendMessage_run, hop, Prod.mk.injEq]
  · push_neg at hs
    obtain ⟨hA, hB⟩ := hs
    rw [if_neg (fun h : cfg.settings.notification_mode = "both" ∨
        cfg.settings.notification_mode = "saved_messages_only" => h.elim hA hB)]
    simp only [dpM_bind_run, dpM_pure_run, if_pos hB]
    by_cases hmof : hm = true ∧ cfg.settings.media_only_forward = true
    · have hc : (!decide (hm = true ∧ cfg.settings.media_only_forward = true)) = false := by
        simp [hmof]
      rw [hc]
      simp only [Bool.false_eq_true, if_false, dpM_bind_run, dpM_pure_run]
      have hfm : cfg.settings.forward_media = true := by
        have h1 : (cfg.settings.notification_mode == "both") = false := by
          simp [hA]
        have h2 : (cfg.settings.notification_mode == "saved_messages_only") = false := by
          simp [hB]
        simp [attempts_delivery, h1, h2, hmof.1, hmof.2] at hatt
        exact hatt
      rw [if_pos (⟨hmof.1, hfm⟩ : hm = true ∧ cfg.settings.forward_media = true)]
      simp [dpTry_run, dpM_bind_run, forwardMessages_run, hop, dpLog_run, sendMessage_run,
        Prod.mk.injEq]
    · have hc : (!decide (hm = true ∧ cfg.settings.media_only_forward = true)) = true := by
        simp only [Bool.not_eq_true', decide_eq_false_iff_not]
        exact hmof
      rw [hc]
      simp [dpM_bind_run, sendMessage_run, hop, Prod.mk.injEq]
/-- C1: `send_notification` never propagates an exception for any transport
behaviour; and when the transport fails every operation while the
configuration calls for at least one delivery attempt (`attempts_delivery`),
the fully composed notification text is logged at info level
(`NOTIFICATION: ...`) — the failure is only logged, never raised. -/
theorem send_notification_never_raises_and_logs_on_exhaustion
    (t : Transport) (now : String) (a : AlertArgs) (s : DpSt) :
    (send_notification t now a s).1.isOk = true ∧
    (TransportAllFail t →
      attempts_delivery s.cfg.settings (has_media a.original_message) = true →
      (⟨.info, "NOTIFICATION: " ++ compose_notification s.cfg.settings a now⟩ : LogEntry) ∈
        (send_notification t now a s).2.logs) := by
  constructor
  · rw [send_notification, dpTry_run]
    split
    · rfl
    · simp only [dpM_bind_run, dpLog_run, dpM_pure_run]
      rfl
  · intro hFail hatt
    obtain ⟨s1, he, hset⟩ := ensure_allfail t hFail s
    have hatt1 : attempts_delivery s1.cfg.settings (has_media a.original_message) = true := by
      rw [hset]; exact hatt
    obtain ⟨s2p, hp⟩ := send_notification_primary_allfail t hFail s1.cfg a
      (compose_notification s1.cfg.settings a now) (has_media a.original_message) hatt1 s1
    obtain ⟨s3, hf, hmem⟩ := send_notification_fallback_allfail t hFail
      s1.cfg.telegram.notification_target (compose_notification s1.cfg.settings a now)
      (has_media a.original_message)
      {s2p with logs := s2p.logs ++
        [⟨.warning, "Failed to send to " ++ s1.cfg.telegram.notification_target⟩]}
    rw [send_notification]
    simp only [dpTry_run, dpM_bind_run, he, dpGetCfg_run, dpLog_run, hp, hf]
    rw [hset] at hmem
    exact hmem

/-- Witness for C1: the always-failing transport with a concrete alert; the
run never raises and the composed notification appears in the log. -/
theorem send_notification_exhaustion_witness :
    (send_notification tfail "t0" ⟨"G", "S", "hello", ["kw"], -100123, 5, none⟩
        ⟨0, cfg0, []⟩).1.isOk = true ∧
    (⟨.info, "NOTIFICATION: " ++ compose_notification (⟨0, cfg0, []⟩ : DpSt).cfg.settings
        ⟨"G", "S", "hello", ["kw"], -100123, 5, none⟩ "t0"⟩ : LogEntry) ∈
      (send_notification tfail "t0" ⟨"G", "S", "hello", ["kw"], -100123, 5, none⟩
        ⟨0, cfg0, []⟩).2.logs :=
  ⟨(send_notification_never_raises_and_logs_on_exhaustion tfail "t0"
      ⟨"G", "S", "hello", ["kw"], -100123, 5, none⟩ ⟨0, cfg0, []⟩).1,
    (send_notification_never_raises_and_logs_on_exhaustion tfail "t0"
      ⟨"G", "S", "hello", ["kw"], -100123, 5, none⟩ ⟨0, cfg0, []⟩).2
      ⟨fun _ _ => rfl, fun _ => rfl, fun _ _ => rfl, fun _ => rfl, fun _ _ => rfl⟩
      (by decide)⟩
